import Mathlib

/-!
Verification of the pathauditor core (component classifier, path walker,
event dispatcher, remote process view) against its natural-language
specification.  The filesystem and kernel-call layer is shallowly embedded:
an abstract `Filesystem` records, per inode ("node") and name, the result
each kernel call would return; a `KState` tracks the file descriptors the
auditor holds, so that descriptor accounting is observable.
-/

set_option maxRecDepth 10000

/-! ## Constants from the kernel headers (x86_64 values) -/

def O_NOFOLLOW : Nat := 131072
def O_EXCL : Nat := 128
def AT_SYMLINK_NOFOLLOW : Nat := 256
def AT_SYMLINK_FOLLOW : Nat := 1024
def AT_EMPTY_PATH : Nat := 4096
def UMOUNT_NOFOLLOW : Nat := 2
def MS_BIND : Nat := 4096
def MS_MOVE : Nat := 8192
def PROC_SUPER_MAGIC : Nat := 40864
def CGROUP_SUPER_MAGIC : Nat := 2613483
def CGROUP2_SUPER_MAGIC : Nat := 1667723888
def FS_IMMUTABLE_FL : Nat := 16
def S_IFMT : Nat := 61440
def S_IFDIR : Nat := 16384
def S_IFLNK : Nat := 40960
def S_IFREG : Nat := 32768
def S_IWGRP : Nat := 16
def S_IWOTH : Nat := 2
def S_ISVTX : Nat := 512
def PATH_MAX : Nat := 4096
def AT_FDCWD : Int := -100

/-- Linux x86_64 syscall numbers for the syscalls the dispatcher handles. -/
def SYS_open : Nat := 2
def SYS_creat : Nat := 85
def SYS_openat : Nat := 257
def SYS_truncate : Nat := 76
def SYS_chmod : Nat := 90
def SYS_chown : Nat := 92
def SYS_lchown : Nat := 94
def SYS_chdir : Nat := 80
def SYS_chroot : Nat := 161
def SYS_unlink : Nat := 87
def SYS_unlinkat : Nat := 263
def SYS_rmdir : Nat := 84
def SYS_mkdir : Nat := 83
def SYS_mkdirat : Nat := 258
def SYS_mknod : Nat := 133
def SYS_mknodat : Nat := 259
def SYS_link : Nat := 86
def SYS_linkat : Nat := 265
def SYS_symlink : Nat := 88
def SYS_symlinkat : Nat := 266
def SYS_rename : Nat := 82
def SYS_renameat : Nat := 264
def SYS_renameat2 : Nat := 316
def SYS_mount : Nat := 165
def SYS_umount2 : Nat := 166
def SYS_execve : Nat := 59
def SYS_execveat : Nat := 322
def SYS_fchmodat : Nat := 268
def SYS_fchownat : Nat := 260
def SYS_name_to_handle_at : Nat := 303
def SYS_uselib : Nat := 134
def SYS_swapon : Nat := 167

/-- Truncation of a uint64 syscall argument to a C `int`, as happens when the
dispatcher reads flag and fd arguments. -/
def toCInt (v : Nat) : Int :=
  let r := v % 4294967296
  if r < 2147483648 then (r : Int) else (r : Int) - 4294967296

/-! ## Structured errors (pathauditor/util canonical errors) -/

inductive Err where
  | failedPrecondition (msg : String)
  | resourceExhausted (msg : String)
  | unimplemented (msg : String)
  | outOfRange (msg : String)
deriving DecidableEq, Repr

/-! ## Path string utilities.

`IsAbsolutePath`, `Dirname` and `JoinPath` live in `pathauditor/util/path.h`,
which is not part of the core sources; the spec declares them external
collaborators ("Path string utilities (absolute-path test, last-component
split, join)").  They are modelled from the spec here. -/

/-- Modelled from the spec: absolute-path test from `pathauditor/util/path.h`
(missing from the sources) — a path is absolute iff it starts with `/`. -/
def IsAbsolutePath (p : String) : Bool :=
  match p.data with
  | c :: _ => c = '/'
  | [] => false

/-- Index of the last `/` in a character list, if any. -/
def lastSlashIdx : List Char → Option Nat
  | [] => none
  | c :: rest =>
    match lastSlashIdx rest with
    | some i => some (i + 1)
    | none => if c = '/' then some 0 else none

/-- Modelled from the spec: last-component split (`Dirname`) from
`pathauditor/util/path.h` (missing from the sources) — everything before the
final `/`; `/` if the only slash is leading; empty if there is no slash. -/
def Dirname (p : String) : String :=
  match lastSlashIdx p.data with
  | none => ""
  | some 0 => "/"
  | some i => String.mk (p.data.take i)

/-- Modelled from the spec: path join from `pathauditor/util/path.h` (missing
from the sources) — joins two fragments with a single `/` separator. -/
def JoinPath (a b : String) : String :=
  if IsAbsolutePath b then a ++ b else a ++ "/" ++ b

/-- Character-level worker for `splitPath`: `acc` holds the reversed
characters of the component being read. -/
def splitPathAux : List Char → List Char → List String
  | [], acc => if acc.isEmpty then [] else [String.mk acc.reverse]
  | c :: rest, acc =>
    if c = '/' then
      if acc.isEmpty then splitPathAux rest []
      else String.mk acc.reverse :: splitPathAux rest []
    else splitPathAux rest (c :: acc)

/-- `absl::StrSplit(path, '/', absl::SkipEmpty())`: split on `/` and drop
empty fragments. -/
def splitPath (p : String) : List String :=
  splitPathAux p.data []

/-! ## Kernel call results and the abstract filesystem -/

/-- Stat information for a node (`struct stat` fields the auditor reads). -/
structure StatBuf where
  st_mode : Nat
  st_uid : Nat
  st_gid : Nat
deriving DecidableEq, Repr

/-- Result of `ioctl(fd, FS_IOC_GETFLAGS)` on a node: `ENOTTY`, some other
errno, or success with the inode flag word. -/
inductive IoctlRes where
  | enotty
  | err
  | flags (f : Nat)
deriving DecidableEq, Repr

/-- Result of `openat(dir, name, O_RDONLY)`: `ENOENT`, some other errno, or
success yielding the opened node. -/
inductive Child where
  | enoent
  | err
  | node (id : Nat)
deriving DecidableEq, Repr

/-- Result of `fstatat(dir, name, ...)`: `ENOENT`, some other errno, or a
stat buffer. -/
inductive StatRes where
  | enoent
  | err
  | ok (sb : StatBuf)
deriving DecidableEq, Repr

/-- The auditee-visible filesystem together with the process-view entry
points, as an oracle giving each kernel call's result.  Nodes are abstract
inode identities. -/
structure Filesystem where
  /-- `ioctl(fd, FS_IOC_GETFLAGS)` on the node behind the fd. -/
  ioctl : Nat → IoctlRes
  /-- `openat(dirNode, name, O_RDONLY)`. -/
  openatChild : Nat → String → Child
  /-- `fstatfs`: the filesystem magic of the node, `none` on failure. -/
  statfs : Nat → Option Nat
  /-- `fstat` of the node itself, `none` on failure. -/
  fstat : Nat → Option StatBuf
  /-- `fstatat(dirNode, name, AT_SYMLINK_NOFOLLOW)`. -/
  fstatatNoFollow : Nat → String → StatRes
  /-- `fstatat(dirNode, name, 0)` (follows symlinks; `name` may be a
  multi-component relative path in the user-writable check). -/
  fstatatFollow : Nat → String → StatRes
  /-- `readlinkat(dirNode, name)`: the link body, `none` on failure. -/
  readlink : Nat → String → Option String
  /-- `ProcessInformation::RootFileDescriptor`: node of the process root. -/
  rootNode : Option Nat
  /-- `ProcessInformation::CwdFileDescriptor`: node of the process cwd. -/
  cwdNode : Option Nat
  /-- `ProcessInformation::DupDirFileDescriptor(fd)`: node behind one of the
  auditee's directory fds. -/
  dupNode : Int → Option Nat

/-! ## Descriptor accounting -/

/-- The auditor's file-descriptor table: open descriptors with the node each
refers to, and the next fresh descriptor number. -/
structure KState where
  table : List (Nat × Nat)
  next : Nat
deriving DecidableEq, Repr

/-- The set (list) of file descriptors currently open. -/
def KState.openFds (k : KState) : List Nat :=
  k.table.map (fun p => p.1)

/-- Node behind an open descriptor. -/
def KState.nodeOf (k : KState) (fd : Nat) : Option Nat :=
  (k.table.find? (fun p => p.1 = fd)).map (fun p => p.2)

/-- Open a fresh descriptor onto `n`. -/
def KState.alloc (k : KState) (n : Nat) : Nat × KState :=
  (k.next, ⟨(k.next, n) :: k.table, k.next + 1⟩)

/-- `close(fd)`. -/
def KState.close (k : KState) (fd : Nat) : KState :=
  ⟨k.table.filter (fun p => p.1 ≠ fd), k.next⟩

/-- Well-formedness: every open descriptor is below the fresh counter. -/
def KState.WF (k : KState) : Prop :=
  ∀ p ∈ k.table, p.1 < k.next

instance (k : KState) : Decidable k.WF := by
  unfold KState.WF; infer_instance

theorem KState.nodeOf_alloc_self (k : KState) (n : Nat) :
    ((k.alloc n).2).nodeOf (k.alloc n).1 = some n := by
  simp [KState.alloc, KState.nodeOf, List.find?]

theorem KState.nodeOf_alloc_ne (k : KState) (n : Nat) (fd : Nat)
    (h : fd ≠ k.next) : ((k.alloc n).2).nodeOf fd = k.nodeOf fd := by
  simp [KState.alloc, KState.nodeOf, List.find?, Ne.symm h]

theorem KState.nodeOf_close_ne (k : KState) (fd fd' : Nat) (h : fd ≠ fd') :
    (k.close fd').nodeOf fd = k.nodeOf fd := by
  unfold KState.close KState.nodeOf
  simp only
  have key : ∀ l : List (Nat × Nat),
      List.find? (fun p => p.1 = fd) (l.filter (fun p => p.1 ≠ fd')) =
        List.find? (fun p => p.1 = fd) l := by
    intro l
    induction l with
    | nil => rfl
    | cons p rest ih =>
      rw [List.filter_cons]
      by_cases hq : p.1 = fd'
      · rw [if_neg (by simp [hq])]
        rw [List.find?_cons_of_neg _ (by simp [hq]; omega)]
        exact ih
      · rw [if_pos (by simp [hq])]
        by_cases hp : p.1 = fd
        · rw [List.find?_cons_of_pos _ (by simp [hp]),
            List.find?_cons_of_pos _ (by simp [hp])]
        · rw [List.find?_cons_of_neg _ (by simp [hp]),
            List.find?_cons_of_neg _ (by simp [hp])]
          exact ih
  rw [key]

theorem KState.lt_next_of_nodeOf (k : KState) (fd n : Nat) (hwf : k.WF)
    (h : k.nodeOf fd = some n) : fd < k.next := by
  unfold KState.nodeOf at h
  cases hf : k.table.find? (fun p => p.1 = fd) with
  | none => simp [hf] at h
  | some p =>
    have hmem := List.mem_of_find?_eq_some hf
    have hkey : p.1 = fd := by
      have := List.find?_some hf
      simpa using this
    have := hwf p hmem
    omega

theorem KState.WF_alloc (k : KState) (n : Nat) (hwf : k.WF) :
    ((k.alloc n).2).WF := by
  intro p hp
  simp only [KState.alloc, List.mem_cons] at hp
  simp only [KState.alloc]
  rcases hp with rfl | hp
  · simp
  · exact Nat.lt_succ_of_lt (hwf p hp)

theorem KState.WF_close (k : KState) (fd : Nat) (hwf : k.WF) :
    (k.close fd).WF := by
  intro p hp
  simp only [KState.close] at hp
  exact hwf p (List.mem_of_mem_filter hp)

/-- Closing the descriptor just allocated restores the original table. -/
theorem KState.close_alloc_table (k : KState) (n : Nat) (hwf : k.WF) :
    (((k.alloc n).2).close (k.alloc n).1).table = k.table := by
  simp only [KState.alloc, KState.close, List.filter_cons]
  rw [if_neg (by simp)]
  refine List.filter_eq_self.2 ?_
  intro p hp
  have hlt := hwf p hp
  simp only [decide_eq_true_eq]
  omega

/-! ## Kernel calls on file descriptors

Each wrapper resolves the descriptor through the auditor's fd table; a
dangling descriptor behaves like `EBADF`, i.e. like any other hard failure
of the call. -/

def fdIoctl (fs : Filesystem) (k : KState) (fd : Nat) : IoctlRes :=
  match k.nodeOf fd with
  | none => .err
  | some n => fs.ioctl n

def fdOpenat (fs : Filesystem) (k : KState) (fd : Nat) (name : String) : Child :=
  match k.nodeOf fd with
  | none => .err
  | some n => fs.openatChild n name

def fdStatfs (fs : Filesystem) (k : KState) (fd : Nat) : Option Nat :=
  match k.nodeOf fd with
  | none => none
  | some n => fs.statfs n

def fdFstat (fs : Filesystem) (k : KState) (fd : Nat) : Option StatBuf :=
  match k.nodeOf fd with
  | none => none
  | some n => fs.fstat n

def fdFstatatNF (fs : Filesystem) (k : KState) (fd : Nat) (name : String) : StatRes :=
  match k.nodeOf fd with
  | none => .err
  | some n => fs.fstatatNoFollow n name

def fdFstatatF (fs : Filesystem) (k : KState) (fd : Nat) (name : String) : StatRes :=
  match k.nodeOf fd with
  | none => .err
  | some n => fs.fstatatFollow n name

def fdReadlink (fs : Filesystem) (k : KState) (fd : Nat) (name : String) : Option String :=
  match k.nodeOf fd with
  | none => none
  | some n => fs.readlink n name

/-! ## Component classifier (pathauditor.cc, FileIsUserControlled) -/

/-- `FdIsImmutable` from pathauditor.cc: queries `FS_IOC_GETFLAGS`;
`ENOTTY` means "not immutable", any other failure is a hard error. -/
def FdIsImmutable (fs : Filesystem) (k : KState) (fd : Nat) : Except Err Bool :=
  match fdIoctl fs k fd with
  | .enotty => .ok false
  | .err => .error (.failedPrecondition "ioctl(FS_IOC_GETFLATS) failed.")
  | .flags f => .ok (f &&& FS_IMMUTABLE_FL != 0)

/-- Tail of `FileIsUserControlled` after the immutability checks: the
filesystem-magic exclusion, the owner check, and the writable/sticky
analysis (pathauditor.cc lines 156-206). -/
def FileIsUserControlledTail (fs : Filesystem) (dir_fd : Nat) (file : String)
    (k : KState) : Except Err Bool × KState :=
  match fdStatfs fs k dir_fd with
  | none => (.error (.failedPrecondition "fstatfs(dir_fd) failed"), k)
  | some magic =>
    if magic = PROC_SUPER_MAGIC ∨ magic = CGROUP_SUPER_MAGIC ∨
        magic = CGROUP2_SUPER_MAGIC then
      (.ok false, k)
    else
      match fdFstat fs k dir_fd with
      | none => (.error (.failedPrecondition "fstat(dir_fd) failed"), k)
      | some sb =>
        if sb.st_uid ≠ 0 then
          (.ok true, k)
        else if (sb.st_gid ≠ 0 ∧ sb.st_mode &&& S_IWGRP ≠ 0) ∨
            sb.st_mode &&& S_IWOTH ≠ 0 then
          if sb.st_mode &&& S_ISVTX = 0 then
            (.ok true, k)
          else
            match fdFstatatNF fs k dir_fd file with
            | .err => (.error (.failedPrecondition ("Couldn't fstatat " ++ file)), k)
            | .enoent => (.ok true, k)
            | .ok next_sb =>
              if next_sb.st_uid ≠ 0 then (.ok true, k) else (.ok false, k)
        else
          (.ok false, k)

/-- Middle part of `FileIsUserControlled` (pathauditor.cc lines 142-154):
the best-effort `openat` of the name and the immutability check of the
opened child, falling through to the tail.  Note that when the immutability
probe of the child errors out, the probe descriptor `file_fd` is NOT closed,
exactly as in the source: the `PATHAUDITOR_ASSIGN_OR_RETURN` early return
happens before the `close(file_fd)` call and `file_fd` has no cleanup
guard. -/
def FileIsUserControlledProbe (fs : Filesystem) (dir_fd : Nat) (file : String)
    (k : KState) : Except Err Bool × KState :=
  match fdOpenat fs k dir_fd file with
  | .err =>
    (.error (.failedPrecondition ("Couldn't open file for immutable check " ++ file)), k)
  | .enoent => FileIsUserControlledTail fs dir_fd file k
  | .node nd =>
    let file_fd := (k.alloc nd).1
    let k1 := (k.alloc nd).2
    match FdIsImmutable fs k1 file_fd with
    | .error e => (.error e, k1)
    | .ok true => (.ok false, k1.close file_fd)
    | .ok false => FileIsUserControlledTail fs dir_fd file (k1.close file_fd)

/-- `FileIsUserControlled` from pathauditor.cc: given the walker's current
directory descriptor and one simple name inside it, decide whether that step
is user-controllable. -/
def FileIsUserControlled (fs : Filesystem) (dir_fd : Nat) (file : String)
    (k : KState) : Except Err Bool × KState :=
  if file = "." ∨ file = ".." then
    (.ok false, k)
  else
    match FdIsImmutable fs k dir_fd with
    | .error e => (.error e, k)
    | .ok true => (.ok false, k)
    | .ok false => FileIsUserControlledProbe fs dir_fd file k

/-! ## The spec's reference decision procedure (spec section 4.2)

Defined from the spec's words, step by step, over a directory node rather
than a descriptor; claim C1 compares it with the code's classifier. -/

/-- Modelled from the spec: steps 4-7 of the section 4.2 decision procedure
(pseudo-filesystem exclusion, owner check, writable/sticky rules). -/
def ClassifierSpecStep4 (fs : Filesystem) (n : Nat) (file : String) :
    Except Err Bool :=
  match fs.statfs n with
  | none => .error (.failedPrecondition "fstatfs(dir_fd) failed")
  | some magic =>
    if magic = PROC_SUPER_MAGIC ∨ magic = CGROUP_SUPER_MAGIC ∨
        magic = CGROUP2_SUPER_MAGIC then
      .ok false
    else
      match fs.fstat n with
      | none => .error (.failedPrecondition "fstat(dir_fd) failed")
      | some sb =>
        if sb.st_uid ≠ 0 then
          .ok true
        else if (sb.st_gid ≠ 0 ∧ sb.st_mode &&& S_IWGRP ≠ 0) ∨
            sb.st_mode &&& S_IWOTH ≠ 0 then
          if sb.st_mode &&& S_ISVTX = 0 then
            .ok true
          else
            match fs.fstatatNoFollow n file with
            | .enoent => .ok true
            | .err => .error (.failedPrecondition ("Couldn't fstatat " ++ file))
            | .ok next_sb => .ok (next_sb.st_uid ≠ 0)
        else
          .ok false

/-- Modelled from the spec: step 3 of the section 4.2 decision procedure
(best-effort open of the name, immutable child means safe). -/
def ClassifierSpecStep3 (fs : Filesystem) (n : Nat) (file : String) :
    Except Err Bool :=
  match fs.openatChild n file with
  | .err => .error (.failedPrecondition ("Couldn't open file for immutable check " ++ file))
  | .enoent => ClassifierSpecStep4 fs n file
  | .node c =>
    match fs.ioctl c with
    | .err => .error (.failedPrecondition "ioctl(FS_IOC_GETFLATS) failed.")
    | .enotty => ClassifierSpecStep4 fs n file
    | .flags f =>
      if f &&& FS_IMMUTABLE_FL != 0 then .ok false
      else ClassifierSpecStep4 fs n file

/-- Modelled from the spec: the section 4.2 decision procedure, rules 1-7
evaluated in order, first rule wins. -/
def ClassifierSpec (fs : Filesystem) (n : Nat) (file : String) :
    Except Err Bool :=
  if file = "." ∨ file = ".." then .ok false
  else
    match fs.ioctl n with
    | .err => .error (.failedPrecondition "ioctl(FS_IOC_GETFLATS) failed.")
    | .enotty => ClassifierSpecStep3 fs n file
    | .flags f =>
      if f &&& FS_IMMUTABLE_FL != 0 then .ok false
      else ClassifierSpecStep3 fs n file

/-! ## Claim C1: the classifier equals the spec's decision procedure -/

theorem fdIoctl_eq (fs : Filesystem) (k : KState) (fd n : Nat)
    (h : k.nodeOf fd = some n) : fdIoctl fs k fd = fs.ioctl n := by
  unfold fdIoctl; rw [h]

theorem fdOpenat_eq (fs : Filesystem) (k : KState) (fd n : Nat) (name : String)
    (h : k.nodeOf fd = some n) : fdOpenat fs k fd name = fs.openatChild n name := by
  unfold fdOpenat; rw [h]

theorem fdStatfs_eq (fs : Filesystem) (k : KState) (fd n : Nat)
    (h : k.nodeOf fd = some n) : fdStatfs fs k fd = fs.statfs n := by
  unfold fdStatfs; rw [h]

theorem fdFstat_eq (fs : Filesystem) (k : KState) (fd n : Nat)
    (h : k.nodeOf fd = some n) : fdFstat fs k fd = fs.fstat n := by
  unfold fdFstat; rw [h]

theorem fdFstatatNF_eq (fs : Filesystem) (k : KState) (fd n : Nat) (name : String)
    (h : k.nodeOf fd = some n) : fdFstatatNF fs k fd name = fs.fstatatNoFollow n name := by
  unfold fdFstatatNF; rw [h]

theorem fdFstatatF_eq (fs : Filesystem) (k : KState) (fd n : Nat) (name : String)
    (h : k.nodeOf fd = some n) : fdFstatatF fs k fd name = fs.fstatatFollow n name := by
  unfold fdFstatatF; rw [h]

theorem fdReadlink_eq (fs : Filesystem) (k : KState) (fd n : Nat) (name : String)
    (h : k.nodeOf fd = some n) : fdReadlink fs k fd name = fs.readlink n name := by
  unfold fdReadlink; rw [h]

theorem FileIsUserControlledTail_eq_spec (fs : Filesystem) (k : KState)
    (dir_fd n : Nat) (file : String) (h : k.nodeOf dir_fd = some n) :
    (FileIsUserControlledTail fs dir_fd file k).1 = ClassifierSpecStep4 fs n file := by
  unfold FileIsUserControlledTail ClassifierSpecStep4
  rw [fdStatfs_eq fs k dir_fd n h, fdFstat_eq fs k dir_fd n h,
    fdFstatatNF_eq fs k dir_fd n file h]
  cases hm : fs.statfs n with
  | none => rfl
  | some magic =>
    by_cases hmg : magic = PROC_SUPER_MAGIC ∨ magic = CGROUP_SUPER_MAGIC ∨
        magic = CGROUP2_SUPER_MAGIC
    · simp [hmg]
    · simp only [if_neg hmg]
      cases hst : fs.fstat n with
      | none => rfl
      | some sb =>
        by_cases hu : sb.st_uid ≠ 0
        · simp [hu]
        · simp only [if_neg hu]
          by_cases hw : (sb.st_gid ≠ 0 ∧ sb.st_mode &&& S_IWGRP ≠ 0) ∨
              sb.st_mode &&& S_IWOTH ≠ 0
          · simp only [if_pos hw]
            by_cases hv : sb.st_mode &&& S_ISVTX = 0
            · simp [hv]
            · simp only [if_neg hv]
              cases hnx : fs.fstatatNoFollow n file with
              | enoent => rfl
              | err => rfl
              | ok next_sb => by_cases hu2 : next_sb.st_uid ≠ 0 <;> simp [hu2]
          · simp [hw]

theorem FileIsUserControlledProbe_eq_spec (fs : Filesystem) (k : KState)
    (dir_fd n : Nat) (file : String) (hwf : k.WF) (h : k.nodeOf dir_fd = some n) :
    (FileIsUserControlledProbe fs dir_fd file k).1 = ClassifierSpecStep3 fs n file := by
  unfold FileIsUserControlledProbe ClassifierSpecStep3
  rw [fdOpenat_eq fs k dir_fd n file h]
  cases hoc : fs.openatChild n file with
  | err => rfl
  | enoent => exact FileIsUserControlledTail_eq_spec fs k dir_fd n file h
  | node nd =>
    simp only
    have hself : ((k.alloc nd).2).nodeOf (k.alloc nd).1 = some nd :=
      KState.nodeOf_alloc_self k nd
    unfold FdIsImmutable
    rw [fdIoctl_eq fs ((k.alloc nd).2) ((k.alloc nd).1) nd hself]
    have hlt : dir_fd < k.next := KState.lt_next_of_nodeOf k dir_fd n hwf h
    have hne : dir_fd ≠ k.next := Nat.ne_of_lt hlt
    have h2 : (((k.alloc nd).2).close ((k.alloc nd).1)).nodeOf dir_fd = some n := by
      rw [KState.nodeOf_close_ne _ dir_fd ((k.alloc nd).1) hne,
        KState.nodeOf_alloc_ne k nd dir_fd hne]
      exact h
    cases hic : fs.ioctl nd with
    | err => rfl
    | enotty => exact FileIsUserControlledTail_eq_spec fs _ dir_fd n file h2
    | flags f =>
      cases hb : (f &&& FS_IMMUTABLE_FL != 0) with
      | true => simp [hb]
      | false =>
        simp only [hb, if_neg (show ¬(false = true) by decide)]
        exact FileIsUserControlledTail_eq_spec fs _ dir_fd n file h2

/-- Claim C1 (theorem): `FileIsUserControlled`, given a directory descriptor
referring to node `n` and a simple name, returns exactly the result of the
spec section 4.2 seven-step reference procedure (`ClassifierSpec`) evaluated
in order with first-rule-wins. -/
theorem FileIsUserControlled_matches_spec (fs : Filesystem) (k : KState)
    (dir_fd n : Nat) (file : String) (hwf : k.WF) (h : k.nodeOf dir_fd = some n) :
    (FileIsUserControlled fs dir_fd file k).1 = ClassifierSpec fs n file := by
  unfold FileIsUserControlled ClassifierSpec
  by_cases hdot : file = "." ∨ file = ".."
  · simp [hdot]
  · simp only [if_neg hdot]
    unfold FdIsImmutable
    rw [fdIoctl_eq fs k dir_fd n h]
    cases hdd : fs.ioctl n with
    | err => rfl
    | enotty => exact FileIsUserControlledProbe_eq_spec fs k dir_fd n file hwf h
    | flags f =>
      cases hb : (f &&& FS_IMMUTABLE_FL != 0) with
      | true => simp [hb]
      | false =>
        simp only [hb, if_neg (show ¬(false = true) by decide)]
        exact FileIsUserControlledProbe_eq_spec fs k dir_fd n file hwf h

/-! ## Path walker (pathauditor.cc, ResolveDirFd / PathIsUserControlled) -/

/-- `ResolveDirFd` from pathauditor.cc: pick the initial directory
descriptor — process root for absolute paths, cwd when `at_fd` is absent or
`AT_FDCWD`, otherwise a re-open of the auditee's `at_fd`. -/
def ResolveDirFd (fs : Filesystem) (k : KState) (path : String)
    (at_fd : Option Int) : Except Err Nat × KState :=
  if IsAbsolutePath path then
    match fs.rootNode with
    | none => (.error (.failedPrecondition "Could not open root"), k)
    | some n => ((.ok (k.alloc n).1), (k.alloc n).2)
  else
    match at_fd with
    | none =>
      match fs.cwdNode with
      | none => (.error (.failedPrecondition "Could not open cwd"), k)
      | some n => ((.ok (k.alloc n).1), (k.alloc n).2)
    | some v =>
      if v = AT_FDCWD then
        match fs.cwdNode with
        | none => (.error (.failedPrecondition "Could not open cwd"), k)
        | some n => ((.ok (k.alloc n).1), (k.alloc n).2)
      else
        match fs.dupNode v with
        | none => (.error (.failedPrecondition "openat on dir fd failed"), k)
        | some n => ((.ok (k.alloc n).1), (k.alloc n).2)

/-- The node `ResolveDirFd` resolves to, independent of descriptor
bookkeeping. -/
def initNode (fs : Filesystem) (path : String) (at_fd : Option Int) : Option Nat :=
  if IsAbsolutePath path then fs.rootNode
  else
    match at_fd with
    | none => fs.cwdNode
    | some v => if v = AT_FDCWD then fs.cwdNode else fs.dupNode v

theorem ResolveDirFd_eq_some (fs : Filesystem) (k : KState) (path : String)
    (at_fd : Option Int) (n : Nat) (h : initNode fs path at_fd = some n) :
    ResolveDirFd fs k path at_fd = ((.ok (k.alloc n).1), (k.alloc n).2) := by
  unfold ResolveDirFd
  unfold initNode at h
  by_cases habs : IsAbsolutePath path = true
  · simp only [habs, if_pos] at h ⊢
    rw [h]
  · simp only [habs] at h ⊢
    simp only [Bool.false_eq_true, if_false] at h ⊢
    cases at_fd with
    | none => simp only at h ⊢; rw [h]
    | some v =>
      simp only at h ⊢
      by_cases hv : v = AT_FDCWD
      · simp only [if_pos hv] at h ⊢; rw [h]
      · simp only [if_neg hv] at h ⊢; rw [h]

theorem ResolveDirFd_eq_none (fs : Filesystem) (k : KState) (path : String)
    (at_fd : Option Int) (h : initNode fs path at_fd = none) :
    ∃ msg, ResolveDirFd fs k path at_fd = (.error (.failedPrecondition msg), k) := by
  unfold ResolveDirFd
  unfold initNode at h
  by_cases habs : IsAbsolutePath path = true
  · simp only [habs, if_pos] at h ⊢
    rw [h]; exact ⟨_, rfl⟩
  · simp only [habs] at h ⊢
    simp only [Bool.false_eq_true, if_false] at h ⊢
    cases at_fd with
    | none => simp only at h ⊢; rw [h]; exact ⟨_, rfl⟩
    | some v =>
      simp only at h ⊢
      by_cases hv : v = AT_FDCWD
      · simp only [if_pos hv] at h ⊢; rw [h]; exact ⟨_, rfl⟩
      · simp only [if_neg hv] at h ⊢; rw [h]; exact ⟨_, rfl⟩

/-- One-per-iteration body of the walker's component loop (pathauditor.cc
lines 228-324).  `B` is the original `max_iteration_count` (used in the
resource-exhausted message), `fuel` the remaining iterations.  The current
directory descriptor is owned by the loop and closed on every exit. -/
def walkLoop (fs : Filesystem) (B : Nat) :
    Nat → Nat → List String → KState → Except Err Bool × KState
  | 0, dir_fd, _, k =>
    (.error (.resourceExhausted ("Ran into max iteration count " ++ toString B)),
      k.close dir_fd)
  | fuel + 1, dir_fd, q, k =>
    match q with
    | [] => (.ok false, k.close dir_fd)
    | elem :: rest =>
      if elem = "." then
        walkLoop fs B fuel dir_fd rest k
      else
        match FileIsUserControlled fs dir_fd elem k with
        | (.error e, k1) => (.error e, k1.close dir_fd)
        | (.ok true, k1) => (.ok true, k1.close dir_fd)
        | (.ok false, k1) =>
          match fdFstatatNF fs k1 dir_fd elem with
          | .err =>
            (.error (.failedPrecondition ("Could not stat path element " ++ elem)),
              k1.close dir_fd)
          | .enoent => (.ok false, k1.close dir_fd)
          | .ok sb0 =>
            -- Symlinks in /proc are magic: if the element is a symlink and
            -- the current directory is on proc, re-stat following the link.
            match
              (if sb0.st_mode &&& S_IFMT = S_IFLNK then
                match fdStatfs fs k1 dir_fd with
                | none =>
                  Except.error (Err.failedPrecondition "fstatfs(dir_fd) failed")
                | some magic =>
                  if magic = PROC_SUPER_MAGIC then
                    match fdFstatatF fs k1 dir_fd elem with
                    | .ok sb2 => Except.ok sb2
                    | _ =>
                      Except.error (Err.failedPrecondition
                        ("Could not stat path element without nofollow" ++ elem))
                  else Except.ok sb0
              else Except.ok sb0) with
            | .error e => (.error e, k1.close dir_fd)
            | .ok sb =>
              if sb.st_mode &&& S_IFMT = S_IFDIR then
                match fdOpenat fs k1 dir_fd elem with
                | .node nd =>
                  walkLoop fs B fuel ((k1.alloc nd).1) rest
                    (((k1.alloc nd).2).close dir_fd)
                | _ =>
                  (.error (.failedPrecondition ("Couldn't openat next elem " ++ elem)),
                    k1.close dir_fd)
              else if sb.st_mode &&& S_IFMT = S_IFLNK then
                match fdReadlink fs k1 dir_fd elem with
                | none =>
                  (.error (.failedPrecondition
                    ("Could not read link for path element " ++ elem)), k1.close dir_fd)
                | some target =>
                  if PATH_MAX ≤ target.length then
                    (.error (.failedPrecondition "Link is larger than PATH_MAX"),
                      k1.close dir_fd)
                  else if IsAbsolutePath target then
                    match fs.rootNode with
                    | none =>
                      (.error (.failedPrecondition "Could not open root"),
                        k1.close dir_fd)
                    | some rn =>
                      walkLoop fs B fuel ((k1.alloc rn).1) (splitPath target ++ rest)
                        (((k1.alloc rn).2).close dir_fd)
                  else
                    walkLoop fs B fuel dir_fd (splitPath target ++ rest) k1
              else
                match rest with
                | [] => (.ok false, k1.close dir_fd)
                | _ :: _ =>
                  (.error (.failedPrecondition "Non-directory in middle of path."),
                    k1.close dir_fd)

/-- `PathIsUserControlled` from pathauditor.cc: resolve the initial
directory descriptor, split the path on `/` dropping empty fragments, and
run the component loop for at most `max_iteration_count` iterations. -/
def PathIsUserControlled (fs : Filesystem) (path : String)
    (at_fd : Option Int) (max_iteration_count : Nat) (k : KState) :
    Except Err Bool × KState :=
  match ResolveDirFd fs k path at_fd with
  | (.error e, k1) => (.error e, k1)
  | (.ok dir_fd, k1) =>
    walkLoop fs max_iteration_count max_iteration_count dir_fd (splitPath path) k1

deriving instance DecidableEq for Except

/-! ## Concrete filesystem instances used as witnesses -/

/-- A root-owned directory, mode 0755 (no group/world write, no sticky). -/
def sbDir : StatBuf := ⟨16877, 0, 0⟩

/-- A symlink, mode 0777. -/
def sbLnk : StatBuf := ⟨41471, 0, 0⟩

/-- A small benign tree: node 0 (root and cwd) has subdirectory "a" = node 1,
which has subdirectory "b" = node 2; every directory is root-owned with mode
0755, on an ordinary filesystem (magic 1), with no inode flags support. -/
def rootSafeFs : Filesystem := {
  ioctl := fun _ => .enotty
  openatChild := fun n c =>
    if n = 0 ∧ c = "a" then .node 1
    else if n = 1 ∧ c = "b" then .node 2
    else .enoent
  statfs := fun _ => some 1
  fstat := fun _ => some sbDir
  fstatatNoFollow := fun n c =>
    if n = 0 ∧ c = "a" then .ok sbDir
    else if n = 1 ∧ c = "b" then .ok sbDir
    else .enoent
  fstatatFollow := fun _ _ => .enoent
  readlink := fun _ _ => none
  rootNode := some 0
  cwdNode := some 0
  dupNode := fun _ => some 0 }

/-- A chain of nested symlinks in the root directory: every name `n` is a
symlink whose body is the distinct name `n ++ "x"` (so `s0` → `s0x` →
`s0xx` → ... is a chain of more than 40 nested symlinks); the directory
itself is root-owned mode 0755 and each full resolution dangles (`openat`
sees `ENOENT`). -/
def symlinkChainFs : Filesystem := {
  ioctl := fun _ => .enotty
  openatChild := fun _ _ => .enoent
  statfs := fun _ => some 1
  fstat := fun _ => some sbDir
  fstatatNoFollow := fun _ _ => .ok sbLnk
  fstatatFollow := fun _ _ => .enoent
  readlink := fun _ c => some (c ++ "x")
  rootNode := some 0
  cwdNode := some 0
  dupNode := fun _ => some 0 }

/-- A filesystem on which the classifier's immutability probe of child "f"
(node 1) opens fine but the subsequent `FS_IOC_GETFLAGS` ioctl fails with an
errno other than `ENOTTY`. -/
def probeLeakFs : Filesystem := {
  ioctl := fun n => if n = 1 then .err else .enotty
  openatChild := fun n c => if n = 0 ∧ c = "f" then .node 1 else .enoent
  statfs := fun _ => some 1
  fstat := fun _ => some sbDir
  fstatatNoFollow := fun _ _ => .enoent
  fstatatFollow := fun _ _ => .enoent
  readlink := fun _ _ => none
  rootNode := some 0
  cwdNode := some 0
  dupNode := fun _ => some 0 }

/-- An absolute path of exactly 40 `.` components: `/././.../.`. -/
def dotsPath : String :=
  "/./././././././././././././././././././././././././././././././././././././././."

/-! ## Claim C9: paths with no non-empty components -/

/-- Claim C9 (theorem): for every path string that splits into no non-empty
components and any `at_fd`, `PathIsUserControlled` returns `false`
(independently of every classifier-related field of the filesystem),
provided the initial directory descriptor resolves and the iteration budget
is at least 1. -/
theorem PathIsUserControlled_no_components (fs : Filesystem) (k : KState)
    (path : String) (at_fd : Option Int) (B n : Nat)
    (hsplit : splitPath path = []) (hinit : initNode fs path at_fd = some n)
    (hB : 1 ≤ B) :
    (PathIsUserControlled fs path at_fd B k).1 = .ok false := by
  unfold PathIsUserControlled
  rw [ResolveDirFd_eq_some fs k path at_fd n hinit]
  simp only
  rw [hsplit]
  obtain ⟨b, rfl⟩ : ∃ b, B = b + 1 := ⟨B - 1, by omega⟩
  simp [walkLoop]

/-- Claim C9 (witness): at the empty path with no `at_fd` on `rootSafeFs`
and default budget 40, the walker answers `false`. -/
theorem PathIsUserControlled_no_components_witness :
    (PathIsUserControlled rootSafeFs "" none 40 ⟨[], 0⟩).1 = .ok false :=
  PathIsUserControlled_no_components rootSafeFs ⟨[], 0⟩ "" none 40 0
    (by decide) (by decide) (by decide)

/-! ## Claim C6: the iteration budget -/

/-- Claim C6 (theorem): the walker's component loop performs at most
`max_iteration_count` iterations (the fuel of `walkLoop`); whenever the
budget is exhausted the walker returns the resource-exhausted error whose
message references the budget `B`, never a boolean — and in particular a
chain of 41 nested symlinks (`symlinkChainFs`) exhausts the default budget
of 40 and yields exactly that error. -/
theorem walker_budget_bound :
    (∀ (fs : Filesystem) (B dfd : Nat) (q : List String) (k : KState),
      walkLoop fs B 0 dfd q k =
        (.error (.resourceExhausted ("Ran into max iteration count " ++ toString B)),
          k.close dfd))
    ∧ (PathIsUserControlled symlinkChainFs "s0" none 40 ⟨[], 0⟩).1 =
        .error (.resourceExhausted "Ran into max iteration count 40") := by
  constructor
  · intro fs B dfd q k
    rfl
  · rfl

/-! ## Claim C10: the empty-queue check happens only at iteration start -/

/-- Claim C10 (theorem): the walker returns `false` only when the component
queue empties within the first `max_iteration_count` iterations, because the
empty-queue check runs only at the start of an iteration: with zero budget
left the loop fails with the resource-exhausted error even when the queue is
already empty; concretely, walking `a/b` (two components, both classified
safe on `rootSafeFs`) with budget exactly 2 returns the resource-exhausted
error even though every component was validated and the queue is empty when
the loop ends. -/
theorem walker_exact_budget_exhausts :
    (∀ (fs : Filesystem) (B dfd : Nat) (k : KState),
      walkLoop fs B 0 dfd [] k =
        (.error (.resourceExhausted ("Ran into max iteration count " ++ toString B)),
          k.close dfd))
    ∧ (PathIsUserControlled rootSafeFs "a/b" none 2 ⟨[], 0⟩).1 =
        .error (.resourceExhausted "Ran into max iteration count 2") := by
  constructor
  · intro fs B dfd k
    rfl
  · rfl

/-! ## Claim C2: descriptor accounting (the probe-descriptor leak) -/

/-- Claim C2 (code bug): on `probeLeakFs`, walking `f` makes the classifier
open the immutability-probe descriptor for child "f" and then hit a non-
`ENOTTY` ioctl failure; the call returns a structured error with the probe
descriptor (fd 1) still open, so the set of open descriptors in the caller
differs before ([]) and after ([1]) the walker call. -/
theorem walker_probe_fd_leak :
    (PathIsUserControlled probeLeakFs "f" none 40 ⟨[], 0⟩).1 =
      .error (.failedPrecondition "ioctl(FS_IOC_GETFLATS) failed.")
    ∧ (PathIsUserControlled probeLeakFs "f" none 40 ⟨[], 0⟩).2.openFds = [1]
    ∧ KState.openFds ⟨[], 0⟩ = []
    ∧ (PathIsUserControlled probeLeakFs "f" none 40 ⟨[], 0⟩).2.openFds ≠
        KState.openFds ⟨[], 0⟩ := by
  refine ⟨rfl, rfl, rfl, ?_⟩
  decide

/-! ## Claim C4 counterexample: a fully safe path can exhaust the budget -/

/-- Claim C4 (counterexample): on `rootSafeFs` — whose every directory is
root-owned with mode 0755 and no sticky bit, with the final component `.`
present and root-owned — the path `/././.../.` of 40 `.` components makes
`PathIsUserControlled` (default budget 40) return the resource-exhausted
error, not `false`, refuting the claim as stated. -/
theorem safe_path_budget_counterexample :
    (PathIsUserControlled rootSafeFs dotsPath none 40 ⟨[], 0⟩).1 =
      .error (.resourceExhausted "Ran into max iteration count 40")
    ∧ (PathIsUserControlled rootSafeFs dotsPath none 40 ⟨[], 0⟩).1 ≠ .ok false := by
  refine ⟨rfl, ?_⟩
  decide

/-! ## Claim C4 (amended): safe root-owned paths classify as false -/

theorem KState.nodeOf_congr (k k' : KState) (h : k'.table = k.table) (fd : Nat) :
    k'.nodeOf fd = k.nodeOf fd := by
  unfold KState.nodeOf; rw [h]

theorem KState.WF_of_le (k k' : KState) (h : k'.table = k.table)
    (hn : k.next ≤ k'.next) (hwf : k.WF) : k'.WF := by
  intro p hp
  rw [h] at hp
  exact lt_of_lt_of_le (hwf p hp) hn

/-- Conditions on directory node `n` and name `c` under which the classifier
is guaranteed to answer "not user-controlled" without error: the kernel
calls it makes succeed (or fail benignly), the directory is root-owned, and
it is neither group- nor world-writable. -/
def dirClassifierSafe (fs : Filesystem) (n : Nat) (c : String) : Bool :=
  (fs.ioctl n ≠ IoctlRes.err) &&
  (match fs.openatChild n c with
   | .enoent => true
   | .err => false
   | .node c' => fs.ioctl c' ≠ IoctlRes.err) &&
  (fs.statfs n).isSome &&
  (match fs.fstat n with
   | none => false
   | some sb =>
     sb.st_uid = 0 && sb.st_mode &&& S_IWGRP = 0 && sb.st_mode &&& S_IWOTH = 0)

/-- The spec's "safe path" side conditions, walked along the component
queue: every non-`.` component is classified in a benign root-owned
non-writable directory, intermediate components stat as directories and can
be entered, no component is a symlink, and the final component is absent or
a non-directory leaf. -/
def SafeChainB (fs : Filesystem) : Nat → List String → Bool
  | _, [] => true
  | n, c :: rest =>
    if c = "." then SafeChainB fs n rest
    else
      (c = ".." || dirClassifierSafe fs n c) &&
      (match fs.fstatatNoFollow n c with
       | .enoent => rest.isEmpty
       | .err => false
       | .ok sb =>
         if sb.st_mode &&& S_IFMT = S_IFDIR then
           match fs.openatChild n c with
           | .node c' => SafeChainB fs c' rest
           | _ => false
         else if sb.st_mode &&& S_IFMT = S_IFLNK then false
         else rest.isEmpty)

theorem FileIsUserControlledTail_safe (fs : Filesystem) (k : KState)
    (dir_fd n : Nat) (c : String) (h : k.nodeOf dir_fd = some n)
    (hst : (fs.statfs n).isSome = true) (sb : StatBuf) (hsb : fs.fstat n = some sb)
    (hu : sb.st_uid = 0) (hg : sb.st_mode &&& S_IWGRP = 0)
    (ho : sb.st_mode &&& S_IWOTH = 0) :
    FileIsUserControlledTail fs dir_fd c k = (.ok false, k) := by
  unfold FileIsUserControlledTail
  rw [fdStatfs_eq fs k dir_fd n h, fdFstat_eq fs k dir_fd n h]
  cases hm : fs.statfs n with
  | none => simp [hm] at hst
  | some magic =>
    dsimp only
    by_cases hmg : magic = PROC_SUPER_MAGIC ∨ magic = CGROUP_SUPER_MAGIC ∨
        magic = CGROUP2_SUPER_MAGIC
    · rw [if_pos hmg]
    · rw [if_neg hmg, hsb]
      dsimp only
      rw [if_neg (by simp [hu])]
      rw [if_neg (by simp [hg, ho])]

/-- On a safe step (the name is `..`, or `dirClassifierSafe` holds), the
classifier answers `false` and leaves the descriptor table unchanged. -/
theorem FileIsUserControlled_safe (fs : Filesystem) (k : KState)
    (dir_fd n : Nat) (c : String) (hwf : k.WF) (h : k.nodeOf dir_fd = some n)
    (hsafe : c = ".." ∨ dirClassifierSafe fs n c = true) :
    ∃ k', FileIsUserControlled fs dir_fd c k = (.ok false, k') ∧
      k'.table = k.table ∧ k.next ≤ k'.next := by
  by_cases hdot : c = "." ∨ c = ".."
  · refine ⟨k, ?_, rfl, Nat.le_refl _⟩
    unfold FileIsUserControlled
    rw [if_pos hdot]
  · have hcs : dirClassifierSafe fs n c = true := by
      rcases hsafe with hc | hc
      · exact absurd (Or.inr hc) hdot
      · exact hc
    unfold dirClassifierSafe at hcs
    simp only [Bool.and_eq_true, decide_eq_true_eq] at hcs
    obtain ⟨⟨⟨hio, hoc⟩, hst⟩, hfs⟩ := hcs
    obtain ⟨sb, hsb, hu, hg, ho⟩ :
        ∃ sb, fs.fstat n = some sb ∧ sb.st_uid = 0 ∧
          sb.st_mode &&& S_IWGRP = 0 ∧ sb.st_mode &&& S_IWOTH = 0 := by
      cases hf : fs.fstat n with
      | none => rw [hf] at hfs; simp at hfs
      | some sb =>
        rw [hf] at hfs
        simp only [Bool.and_eq_true, decide_eq_true_eq] at hfs
        exact ⟨sb, rfl, hfs.1.1, hfs.1.2, hfs.2⟩
    unfold FileIsUserControlled
    rw [if_neg hdot]
    unfold FdIsImmutable
    rw [fdIoctl_eq fs k dir_fd n h]
    have hprobe : ∃ k', FileIsUserControlledProbe fs dir_fd c k = (.ok false, k') ∧
        k'.table = k.table ∧ k.next ≤ k'.next := by
      unfold FileIsUserControlledProbe
      rw [fdOpenat_eq fs k dir_fd n c h]
      cases hop : fs.openatChild n c with
      | err => rw [hop] at hoc; simp at hoc
      | enoent =>
        exact ⟨k, FileIsUserControlledTail_safe fs k dir_fd n c h hst sb hsb hu hg ho,
          rfl, Nat.le_refl _⟩
      | node c' =>
        rw [hop] at hoc
        simp only [decide_eq_true_eq] at hoc
        dsimp only
        unfold FdIsImmutable
        rw [fdIoctl_eq fs ((k.alloc c').2) ((k.alloc c').1) c'
          (KState.nodeOf_alloc_self k c')]
        have htab2 : (((k.alloc c').2).close ((k.alloc c').1)).table = k.table :=
          KState.close_alloc_table k c' hwf
        have hn2 : (((k.alloc c').2).close ((k.alloc c').1)).nodeOf dir_fd = some n := by
          rw [KState.nodeOf_congr k _ htab2 dir_fd]
          exact h
        have hnext2 : (((k.alloc c').2).close ((k.alloc c').1)).next = k.next + 1 := rfl
        cases hic : fs.ioctl c' with
        | err => exact absurd hic hoc
        | enotty =>
          dsimp only
          refine ⟨_, FileIsUserControlledTail_safe fs _ dir_fd n c hn2 hst sb hsb hu hg ho,
            htab2, by omega⟩
        | flags f =>
          cases hb : (f &&& FS_IMMUTABLE_FL != 0) with
          | true =>
            dsimp only
            rw [hb]
            dsimp only
            exact ⟨_, rfl, htab2, by omega⟩
          | false =>
            dsimp only
            rw [hb]
            dsimp only
            refine ⟨_, FileIsUserControlledTail_safe fs _ dir_fd n c hn2 hst sb hsb hu hg ho,
              htab2, by omega⟩
    cases hio2 : fs.ioctl n with
    | err => exact absurd hio2 hio
    | enotty => exact hprobe
    | flags f =>
      cases hb : (f &&& FS_IMMUTABLE_FL != 0) with
      | true =>
        dsimp only
        rw [hb]
        dsimp only
        exact ⟨k, rfl, rfl, Nat.le_refl _⟩
      | false =>
        dsimp only
        rw [hb]
        dsimp only
        exact hprobe

/-- Along a `SafeChainB`-conforming queue with enough budget, the component
loop answers `false`. -/
theorem walkLoop_safe (fs : Filesystem) (B : Nat) :
    ∀ (q : List String) (fuel dir_fd n : Nat) (k : KState), k.WF →
      k.nodeOf dir_fd = some n → SafeChainB fs n q = true → q.length < fuel →
      (walkLoop fs B fuel dir_fd q k).1 = .ok false := by
  intro q
  induction q with
  | nil =>
    intro fuel dir_fd n k hwf h hsafe hlen
    obtain ⟨f, rfl⟩ : ∃ f, fuel = f + 1 := ⟨fuel - 1, by omega⟩
    rfl
  | cons c rest ih =>
    intro fuel dir_fd n k hwf h hsafe hlen
    obtain ⟨f, rfl⟩ : ∃ f, fuel = f + 1 := ⟨fuel - 1, by omega⟩
    have hlen' : rest.length < f := by
      simp only [List.length_cons] at hlen
      omega
    unfold SafeChainB at hsafe
    simp only [walkLoop]
    by_cases hdot : c = "."
    · rw [if_pos hdot]
      rw [if_pos hdot] at hsafe
      exact ih f dir_fd n k hwf h hsafe hlen'
    · rw [if_neg hdot]
      rw [if_neg hdot] at hsafe
      simp only [Bool.and_eq_true] at hsafe
      obtain ⟨hcls, hrest⟩ := hsafe
      have hcls' : c = ".." ∨ dirClassifierSafe fs n c = true := by
        simp only [Bool.or_eq_true, decide_eq_true_eq] at hcls
        exact hcls
      obtain ⟨k', hcl, htab, hnext⟩ := FileIsUserControlled_safe fs k dir_fd n c hwf h hcls'
      rw [hcl]
      dsimp only
      have h' : k'.nodeOf dir_fd = some n := by
        rw [KState.nodeOf_congr k k' htab]
        exact h
      have hwf' : k'.WF := KState.WF_of_le k k' htab hnext hwf
      rw [fdFstatatNF_eq fs k' dir_fd n c h']
      cases hnx : fs.fstatatNoFollow n c with
      | err => rw [hnx] at hrest; simp at hrest
      | enoent => rfl
      | ok sb =>
        rw [hnx] at hrest
        dsimp only at hrest
        dsimp only
        by_cases hdir : sb.st_mode &&& S_IFMT = S_IFDIR
        · rw [if_pos hdir] at hrest
          have hlnk : ¬ sb.st_mode &&& S_IFMT = S_IFLNK := by
            rw [hdir]; decide
          rw [if_neg hlnk]
          dsimp only
          rw [if_pos hdir]
          rw [fdOpenat_eq fs k' dir_fd n c h']
          cases hop : fs.openatChild n c with
          | enoent => rw [hop] at hrest; simp at hrest
          | err => rw [hop] at hrest; simp at hrest
          | node c' =>
            rw [hop] at hrest
            dsimp only
            refine ih f ((k'.alloc c').1) c' (((k'.alloc c').2).close dir_fd)
              (KState.WF_close _ _ (KState.WF_alloc k' c' hwf')) ?_ hrest hlen'
            have hne : (k'.alloc c').1 ≠ dir_fd := by
              have := KState.lt_next_of_nodeOf k' dir_fd n hwf' h'
              simp only [KState.alloc]
              omega
            rw [KState.nodeOf_close_ne _ _ _ hne]
            exact KState.nodeOf_alloc_self k' c'
        · rw [if_neg hdir] at hrest
          by_cases hlnk : sb.st_mode &&& S_IFMT = S_IFLNK
          · rw [if_pos hlnk] at hrest
            simp at hrest
          · rw [if_neg hlnk] at hrest
            rw [if_neg hlnk]
            dsimp only
            rw [if_neg hdir, if_neg hlnk]
            have hre : rest = [] := by
              cases rest with
              | nil => rfl
              | cons a b => simp [List.isEmpty] at hrest
            subst hre
            rfl

/-- Claim C4 (amended, theorem): for any path in which, along the walk,
every intermediate directory is root-owned, neither group- nor
world-writable (mode at most 0755) with benign kernel-call results, no
component is a symlink, and the final component is absent or a root-owned
leaf (`SafeChainB`), `PathIsUserControlled` returns `false` — provided the
initial descriptor resolves and the path has fewer components than
`max_iteration_count`. -/
theorem PathIsUserControlled_safe_path (fs : Filesystem) (k : KState)
    (path : String) (at_fd : Option Int) (B n₀ : Nat) (hwf : k.WF)
    (hinit : initNode fs path at_fd = some n₀)
    (hsafe : SafeChainB fs n₀ (splitPath path) = true)
    (hlen : (splitPath path).length < B) :
    (PathIsUserControlled fs path at_fd B k).1 = .ok false := by
  unfold PathIsUserControlled
  rw [ResolveDirFd_eq_some fs k path at_fd n₀ hinit]
  dsimp only
  exact walkLoop_safe fs B (splitPath path) B ((k.alloc n₀).1) n₀ ((k.alloc n₀).2)
    (KState.WF_alloc k n₀ hwf) (KState.nodeOf_alloc_self k n₀) hsafe hlen

/-- Claim C4 (witness): walking `a/b` on `rootSafeFs` (all directories
root-owned, mode 0755, final component `b` a root-owned directory) with the
default budget 40 yields `false`. -/
theorem PathIsUserControlled_safe_path_witness :
    (PathIsUserControlled rootSafeFs "a/b" none 40 ⟨[], 0⟩).1 = .ok false :=
  PathIsUserControlled_safe_path rootSafeFs ⟨[], 0⟩ "a/b" none 40 0 (by decide)
    (by decide) (by decide) (by decide)

/-- Claim C1 (witness): at the concrete directory descriptor 0 (open onto
node 0 of `rootSafeFs`) and name `a`, the classifier and the spec procedure
agree. -/
theorem FileIsUserControlled_matches_spec_witness :
    (FileIsUserControlled rootSafeFs 0 "a" ⟨[(0, 0)], 1⟩).1 =
      ClassifierSpec rootSafeFs 0 "a" :=
  FileIsUserControlled_matches_spec rootSafeFs ⟨[(0, 0)], 1⟩ 0 0 "a" (by decide)
    (by decide)

/-! ## FileEvent (file_event.h / file_event.cc) -/

/-- A filesystem-related syscall event: syscall number, numeric arguments
(positional, path slots zeroed) and path arguments. -/
structure FileEvent where
  syscall_nr : Nat
  args : List Nat
  path_args : List String
deriving DecidableEq, Repr

/-- `FileEvent::Arg`: the idx-th numeric argument or an out-of-range
error. -/
def FileEvent.Arg (e : FileEvent) (idx : Nat) : Except Err Nat :=
  match e.args.get? idx with
  | some v => .ok v
  | none =>
    .error (.outOfRange ("Index " ++ toString idx ++ " out of range (size " ++
      toString e.args.length ++ ")."))

/-- `FileEvent::PathArg`: the idx-th path argument or an out-of-range
error. -/
def FileEvent.PathArg (e : FileEvent) (idx : Nat) : Except Err String :=
  match e.path_args.get? idx with
  | some v => .ok v
  | none =>
    .error (.outOfRange ("Index " ++ toString idx ++ " out of range (size " ++
      toString e.path_args.length ++ ")."))

/-! ## Direct user-writable check and the event dispatcher
(pathauditor.cc, FileIsUserWritable / FileEventIsUserControlled) -/

/-- `FileIsUserWritable` from pathauditor.cc: resolve the initial directory
descriptor, `fstatat` the file (following symlinks), and test regular-file
ownership and write bits.  The directory descriptor is always released. -/
def FileIsUserWritable (fs : Filesystem) (file : String) (at_fd : Option Int)
    (k : KState) : Except Err Bool × KState :=
  match ResolveDirFd fs k file at_fd with
  | (.error e, k1) => (.error e, k1)
  | (.ok dir_fd, k1) =>
    match fdFstatatF fs k1 dir_fd file with
    | .err => (.error (.failedPrecondition ("Couldn't fstatat " ++ file)), k1.close dir_fd)
    | .enoent => (.ok false, k1.close dir_fd)
    | .ok sb =>
      if ¬ (sb.st_mode &&& S_IFMT = S_IFREG) then (.ok false, k1.close dir_fd)
      else if sb.st_uid ≠ 0 then (.ok true, k1.close dir_fd)
      else if (sb.st_gid ≠ 0 ∧ sb.st_mode &&& S_IWGRP ≠ 0) ∨
          sb.st_mode &&& S_IWOTH ≠ 0 then
        (.ok true, k1.close dir_fd)
      else (.ok false, k1.close dir_fd)

/-- Tail of the dispatcher: strip the last component if the syscall does not
follow the final symlink, then run the primary walk (default budget 40). -/
def dispatchFinish (fs : Filesystem) (path : String) (fd_arg : Option Int)
    (skip_last_element : Bool) (k : KState) : Except Err Bool × KState :=
  PathIsUserControlled fs (if skip_last_element then Dirname path else path)
    fd_arg 40 k

/-- `FileEventIsUserControlled` from pathauditor.cc: the per-syscall
dispatcher.  Mirrors the C++ switch case by case, including the order of
argument fetches, the early returns, and the `result.ok() && *result`
treatment of secondary walks and direct checks. -/
def FileEventIsUserControlled (fs : Filesystem) (e : FileEvent) (k : KState) :
    Except Err Bool × KState :=
  match e.PathArg 0 with
  | .error er => (.error er, k)
  | .ok path =>
    if e.syscall_nr = SYS_chmod ∨ e.syscall_nr = SYS_chown ∨
        e.syscall_nr = SYS_chdir ∨ e.syscall_nr = SYS_rmdir ∨
        e.syscall_nr = SYS_uselib ∨ e.syscall_nr = SYS_swapon ∨
        e.syscall_nr = SYS_chroot ∨ e.syscall_nr = SYS_creat ∨
        e.syscall_nr = SYS_truncate then
      dispatchFinish fs path none false k
    else if e.syscall_nr = SYS_unlink ∨ e.syscall_nr = SYS_mknod ∨
        e.syscall_nr = SYS_mkdir ∨ e.syscall_nr = SYS_lchown then
      dispatchFinish fs path none true k
    else if e.syscall_nr = SYS_unlinkat ∨ e.syscall_nr = SYS_mknodat ∨
        e.syscall_nr = SYS_mkdirat then
      match e.Arg 0 with
      | .error er => (.error er, k)
      | .ok v => dispatchFinish fs path (some (toCInt v)) true k
    else if e.syscall_nr = SYS_open then
      match e.Arg 1 with
      | .error er => (.error er, k)
      | .ok flags =>
        dispatchFinish fs path none
          (flags &&& O_NOFOLLOW != 0 || flags &&& O_EXCL != 0) k
    else if e.syscall_nr = SYS_openat then
      match e.Arg 0 with
      | .error er => (.error er, k)
      | .ok v =>
        match e.Arg 2 with
        | .error er => (.error er, k)
        | .ok flags =>
          dispatchFinish fs path (some (toCInt v))
            (flags &&& O_NOFOLLOW != 0 || flags &&& O_EXCL != 0) k
    else if e.syscall_nr = SYS_fchmodat then
      match e.Arg 0 with
      | .error er => (.error er, k)
      | .ok v => dispatchFinish fs path (some (toCInt v)) false k
    else if e.syscall_nr = SYS_fchownat then
      match e.Arg 0 with
      | .error er => (.error er, k)
      | .ok v =>
        match e.Arg 4 with
        | .error er => (.error er, k)
        | .ok flags =>
          if flags &&& AT_EMPTY_PATH != 0 && path = "" then (.ok false, k)
          else
            dispatchFinish fs path (some (toCInt v))
              (flags &&& AT_SYMLINK_NOFOLLOW != 0) k
    else if e.syscall_nr = SYS_execveat then
      match e.Arg 0 with
      | .error er => (.error er, k)
      | .ok v =>
        match e.Arg 4 with
        | .error er => (.error er, k)
        | .ok flags =>
          if flags &&& AT_EMPTY_PATH != 0 && path = "" then (.ok false, k)
          else
            match FileIsUserWritable fs path (some (toCInt v)) k with
            | (.ok true, k1) => (.ok true, k1)
            | (_, k1) =>
              dispatchFinish fs path (some (toCInt v))
                (flags &&& AT_SYMLINK_NOFOLLOW != 0) k1
    else if e.syscall_nr = SYS_execve then
      match FileIsUserWritable fs path none k with
      | (.ok true, k1) => (.ok true, k1)
      | (_, k1) => dispatchFinish fs path none false k1
    else if e.syscall_nr = SYS_umount2 then
      match e.Arg 1 with
      | .error er => (.error er, k)
      | .ok flags =>
        dispatchFinish fs path none (flags &&& UMOUNT_NOFOLLOW != 0) k
    else if e.syscall_nr = SYS_name_to_handle_at then
      match e.Arg 4 with
      | .error er => (.error er, k)
      | .ok flags =>
        if flags &&& AT_EMPTY_PATH != 0 && path = "" then (.ok false, k)
        else
          dispatchFinish fs path none (!(flags &&& AT_SYMLINK_FOLLOW != 0)) k
    else if e.syscall_nr = SYS_rename then
      match e.PathArg 1 with
      | .error er => (.error er, k)
      | .ok other_path =>
        match PathIsUserControlled fs (Dirname other_path) none 40 k with
        | (.ok true, k1) => (.ok true, k1)
        | (_, k1) => dispatchFinish fs path none true k1
    else if e.syscall_nr = SYS_renameat ∨ e.syscall_nr = SYS_renameat2 then
      match e.Arg 0 with
      | .error er => (.error er, k)
      | .ok v =>
        match e.Arg 2 with
        | .error er => (.error er, k)
        | .ok new_fd =>
          match e.PathArg 1 with
          | .error er => (.error er, k)
          | .ok new_path =>
            match PathIsUserControlled fs (Dirname new_path)
                (some (toCInt new_fd)) 40 k with
            | (.ok true, k1) => (.ok true, k1)
            | (_, k1) => dispatchFinish fs path (some (toCInt v)) true k1
    else if e.syscall_nr = SYS_link then
      match e.PathArg 1 with
      | .error er => (.error er, k)
      | .ok newpath =>
        match PathIsUserControlled fs (Dirname newpath) none 40 k with
        | (.ok true, k1) => (.ok true, k1)
        | (_, k1) => dispatchFinish fs path none false k1
    else if e.syscall_nr = SYS_symlink then
      match e.PathArg 1 with
      | .error er => (.error er, k)
      | .ok newpath =>
        match PathIsUserControlled fs (Dirname newpath) none 40 k with
        | (.ok true, k1) => (.ok true, k1)
        | (_, k1) => (.ok false, k1)
    else if e.syscall_nr = SYS_linkat then
      match e.Arg 0 with
      | .error er => (.error er, k)
      | .ok v =>
        match e.PathArg 1 with
        | .error er => (.error er, k)
        | .ok newpath =>
          match e.Arg 2 with
          | .error er => (.error er, k)
          | .ok newdirfd =>
            match e.Arg 4 with
            | .error er => (.error er, k)
            | .ok flags =>
              match PathIsUserControlled fs (Dirname newpath)
                  (some (toCInt newdirfd)) 40 k with
              | (.ok true, k1) => (.ok true, k1)
              | (_, k1) =>
                if flags &&& AT_EMPTY_PATH != 0 && path = "" then (.ok false, k1)
                else
                  dispatchFinish fs path (some (toCInt v))
                    (!(flags &&& AT_SYMLINK_FOLLOW != 0)) k1
    else if e.syscall_nr = SYS_symlinkat then
      match e.PathArg 1 with
      | .error er => (.error er, k)
      | .ok newpath =>
        match e.Arg 1 with
        | .error er => (.error er, k)
        | .ok newdirfd =>
          match PathIsUserControlled fs (Dirname newpath)
              (some (toCInt newdirfd)) 40 k with
          | (.ok true, k1) => (.ok true, k1)
          | (_, k1) => (.ok false, k1)
    else if e.syscall_nr = SYS_mount then
      match e.PathArg 1 with
      | .error er => (.error er, k)
      | .ok target =>
        match e.Arg 3 with
        | .error er => (.error er, k)
        | .ok flags =>
          match PathIsUserControlled fs target none 40 k with
          | (.ok true, k1) => (.ok true, k1)
          | (_, k1) =>
            if flags &&& (MS_BIND ||| MS_MOVE) = 0 then (.ok false, k1)
            else dispatchFinish fs path none false k1
    else
      (.error (.unimplemented ("No support for syscall " ++ toString e.syscall_nr)), k)

/-! ## Claims about the dispatcher (C3, C5, C7) -/

/-- `rootSafeFs` with no resolvable cwd: any relative walk fails with a
structured error at initial-descriptor resolution. -/
def noCwdFs : Filesystem := { rootSafeFs with cwdNode := none }

/-- A user-owned (uid 1000) directory, mode 0755. -/
def sbUserDir : StatBuf := ⟨16877, 1000, 1000⟩

/-- A filesystem whose every directory is owned by uid 1000, so the
classifier fires at the first component of any walk. -/
def userDirFs : Filesystem := {
  ioctl := fun _ => .enotty
  openatChild := fun _ _ => .enoent
  statfs := fun _ => some 1
  fstat := fun _ => some sbUserDir
  fstatatNoFollow := fun _ _ => .enoent
  fstatatFollow := fun _ _ => .enoent
  readlink := fun _ _ => none
  rootNode := some 0
  cwdNode := some 0
  dupNode := fun _ => some 0 }

/-- Claim C3 (counterexample): for a `symlink` event whose secondary walk of
`dirname(path_arg[1])` fails with a structured error (no resolvable cwd on
`noCwdFs`), the dispatcher returns the boolean `false`, not the error. -/
theorem symlink_secondary_error_returns_false :
    (PathIsUserControlled noCwdFs "d" none 40 ⟨[], 0⟩).1 =
      .error (.failedPrecondition "Could not open cwd")
    ∧ (FileEventIsUserControlled noCwdFs
        ⟨SYS_symlink, [0, 0], ["target", "d/x"]⟩ ⟨[], 0⟩).1 = .ok false :=
  ⟨rfl, rfl⟩

/-- Claim C3 (amended, theorem): for `symlink` and `symlinkat` events with
both path arguments present, the dispatcher's answer is determined by the
secondary walk of `dirname(path_arg[1])` (for `symlinkat`, relative to the
`newdirfd` read from numeric argument 1): an `ok true` result yields `true`,
and every other outcome — `ok false` or a structured error — yields the
boolean answer `false`; a structured error from the secondary walk is thus
converted into a boolean, not propagated. -/
theorem symlink_dispatch_swallows_secondary_error (fs : Filesystem)
    (k : KState) (args : List Nat) (a1 : Nat) (p0 p1 : String)
    (hArg : args.get? 1 = some a1) :
    FileEventIsUserControlled fs ⟨SYS_symlink, args, [p0, p1]⟩ k =
      (match PathIsUserControlled fs (Dirname p1) none 40 k with
       | (.ok true, k1) => (.ok true, k1)
       | (_, k1) => (.ok false, k1))
    ∧ FileEventIsUserControlled fs ⟨SYS_symlinkat, args, [p0, p1]⟩ k =
      (match PathIsUserControlled fs (Dirname p1) (some (toCInt a1)) 40 k with
       | (.ok true, k1) => (.ok true, k1)
       | (_, k1) => (.ok false, k1)) := by
  constructor
  · unfold FileEventIsUserControlled
    rw [show FileEvent.PathArg ⟨SYS_symlink, args, [p0, p1]⟩ 0 = .ok p0 from rfl]
    dsimp only
    rw [if_neg (by decide), if_neg (by decide), if_neg (by decide),
      if_neg (by decide), if_neg (by decide), if_neg (by decide),
      if_neg (by decide), if_neg (by decide), if_neg (by decide),
      if_neg (by decide), if_neg (by decide), if_neg (by decide),
      if_neg (by decide), if_neg (by decide), if_pos (by decide)]
    rw [show FileEvent.PathArg ⟨SYS_symlink, args, [p0, p1]⟩ 1 = .ok p1 from rfl]
  · unfold FileEventIsUserControlled
    rw [show FileEvent.PathArg ⟨SYS_symlinkat, args, [p0, p1]⟩ 0 = .ok p0 from rfl]
    dsimp only
    rw [if_neg (by decide), if_neg (by decide), if_neg (by decide),
      if_neg (by decide), if_neg (by decide), if_neg (by decide),
      if_neg (by decide), if_neg (by decide), if_neg (by decide),
      if_neg (by decide), if_neg (by decide), if_neg (by decide),
      if_neg (by decide), if_neg (by decide), if_neg (by decide),
      if_neg (by decide), if_pos (by decide)]
    rw [show FileEvent.PathArg ⟨SYS_symlinkat, args, [p0, p1]⟩ 1 = .ok p1 from rfl]
    dsimp only
    rw [show FileEvent.Arg ⟨SYS_symlinkat, args, [p0, p1]⟩ 1 = .ok a1 from by
      unfold FileEvent.Arg
      rw [show (FileEvent.mk SYS_symlinkat args [p0, p1]).args = args from rfl, hArg]]

/-- Claim C3 (witness): on `noCwdFs` the secondary walk errors — `symlink`
answers `false`, and so does `symlinkat` with `newdirfd` encoding
`AT_FDCWD` (uint64 0xFFFFFF9C truncating to the C int -100). -/
theorem symlink_dispatch_swallows_secondary_error_witness :
    FileEventIsUserControlled noCwdFs
      ⟨SYS_symlink, [0, 4294967196, 0], ["target", "d/x"]⟩ ⟨[], 0⟩ =
        (.ok false, ⟨[], 0⟩)
    ∧ FileEventIsUserControlled noCwdFs
        ⟨SYS_symlinkat, [0, 4294967196, 0], ["target", "d/x"]⟩ ⟨[], 0⟩ =
        (.ok false, ⟨[], 0⟩) := by
  constructor
  · rw [(symlink_dispatch_swallows_secondary_error noCwdFs ⟨[], 0⟩
      [0, 4294967196, 0] 4294967196 "target" "d/x" (by decide)).1]
    rfl
  · rw [(symlink_dispatch_swallows_secondary_error noCwdFs ⟨[], 0⟩
      [0, 4294967196, 0] 4294967196 "target" "d/x" (by decide)).2]
    rfl

/-- Claim C5 (counterexample): a `linkat` event with `AT_EMPTY_PATH` set and
an empty primary path does NOT return `false` immediately: the secondary
walk of `dirname(path_arg[1])` runs first, and on `userDirFs` (where that
directory is user-owned) the dispatcher answers `true`. -/
theorem linkat_empty_path_counterexample :
    (FileEventIsUserControlled userDirFs
      ⟨SYS_linkat, [3, 0, 5, 0, 4096], ["", "x/y"]⟩ ⟨[], 0⟩).1 = .ok true
    ∧ (FileEventIsUserControlled userDirFs
        ⟨SYS_linkat, [3, 0, 5, 0, 4096], ["", "x/y"]⟩ ⟨[], 0⟩).1 ≠ .ok false := by
  refine ⟨rfl, ?_⟩
  intro h
  rw [show (FileEventIsUserControlled userDirFs
    ⟨SYS_linkat, [3, 0, 5, 0, 4096], ["", "x/y"]⟩ ⟨[], 0⟩).1 = .ok true from rfl] at h
  simp at h

/-- Claim C5 (amended, theorem): for `fchownat`, `execveat` and
`name_to_handle_at` events with `AT_EMPTY_PATH` set and an empty primary
path, the dispatcher returns `false` immediately, before any walk; for
`linkat`, however, the secondary walk of `dirname(path_arg[1])` runs first —
an `ok true` secondary wins, and only otherwise does the empty-path rule
produce `false`. -/
theorem empty_path_short_circuits (fs : Filesystem) (k : KState)
    (a0 a1 a2 a3 fl : Nat) (ps : List String) (p1 : String)
    (hfl : fl &&& AT_EMPTY_PATH ≠ 0) :
    FileEventIsUserControlled fs ⟨SYS_fchownat, [a0, a1, a2, a3, fl], "" :: ps⟩ k =
      (.ok false, k)
    ∧ FileEventIsUserControlled fs ⟨SYS_execveat, [a0, a1, a2, a3, fl], "" :: ps⟩ k =
      (.ok false, k)
    ∧ FileEventIsUserControlled fs
        ⟨SYS_name_to_handle_at, [a0, a1, a2, a3, fl], "" :: ps⟩ k = (.ok false, k)
    ∧ FileEventIsUserControlled fs ⟨SYS_linkat, [a0, a1, a2, a3, fl], ["", p1]⟩ k =
      (match PathIsUserControlled fs (Dirname p1) (some (toCInt a2)) 40 k with
       | (.ok true, k1) => (.ok true, k1)
       | (_, k1) => (.ok false, k1)) := by
  have hfl' : (fl &&& AT_EMPTY_PATH != 0) = true := by
    simp only [bne_iff_ne, ne_eq]
    exact hfl
  refine ⟨?_, ?_, ?_, ?_⟩
  · unfold FileEventIsUserControlled
    rw [show FileEvent.PathArg ⟨SYS_fchownat, [a0, a1, a2, a3, fl], "" :: ps⟩ 0 =
      .ok "" from rfl]
    dsimp only
    rw [if_neg (by decide), if_neg (by decide), if_neg (by decide),
      if_neg (by decide), if_neg (by decide), if_neg (by decide),
      if_pos (by decide)]
    rw [show FileEvent.Arg ⟨SYS_fchownat, [a0, a1, a2, a3, fl], "" :: ps⟩ 0 =
      .ok a0 from rfl]
    dsimp only
    rw [show FileEvent.Arg ⟨SYS_fchownat, [a0, a1, a2, a3, fl], "" :: ps⟩ 4 =
      .ok fl from rfl]
    dsimp only
    rw [if_pos (by simp [hfl'])]
  · unfold FileEventIsUserControlled
    rw [show FileEvent.PathArg ⟨SYS_execveat, [a0, a1, a2, a3, fl], "" :: ps⟩ 0 =
      .ok "" from rfl]
    dsimp only
    rw [if_neg (by decide), if_neg (by decide), if_neg (by decide),
      if_neg (by decide), if_neg (by decide), if_neg (by decide),
      if_neg (by decide), if_pos (by decide)]
    rw [show FileEvent.Arg ⟨SYS_execveat, [a0, a1, a2, a3, fl], "" :: ps⟩ 0 =
      .ok a0 from rfl]
    dsimp only
    rw [show FileEvent.Arg ⟨SYS_execveat, [a0, a1, a2, a3, fl], "" :: ps⟩ 4 =
      .ok fl from rfl]
    dsimp only
    rw [if_pos (by simp [hfl'])]
  · unfold FileEventIsUserControlled
    rw [show FileEvent.PathArg
      ⟨SYS_name_to_handle_at, [a0, a1, a2, a3, fl], "" :: ps⟩ 0 = .ok "" from rfl]
    dsimp only
    rw [if_neg (by decide), if_neg (by decide), if_neg (by decide),
      if_neg (by decide), if_neg (by decide), if_neg (by decide),
      if_neg (by decide), if_neg (by decide), if_neg (by decide),
      if_neg (by decide), if_pos (by decide)]
    rw [show FileEvent.Arg
      ⟨SYS_name_to_handle_at, [a0, a1, a2, a3, fl], "" :: ps⟩ 4 = .ok fl from rfl]
    dsimp only
    rw [if_pos (by simp [hfl'])]
  · unfold FileEventIsUserControlled
    rw [show FileEvent.PathArg ⟨SYS_linkat, [a0, a1, a2, a3, fl], ["", p1]⟩ 0 =
      .ok "" from rfl]
    dsimp only
    rw [if_neg (by decide), if_neg (by decide), if_neg (by decide),
      if_neg (by decide), if_neg (by decide), if_neg (by decide),
      if_neg (by decide), if_neg (by decide), if_neg (by decide),
      if_neg (by decide), if_neg (by decide), if_neg (by decide),
      if_neg (by decide), if_neg (by decide), if_neg (by decide),
      if_pos (by decide)]
    rw [show FileEvent.Arg ⟨SYS_linkat, [a0, a1, a2, a3, fl], ["", p1]⟩ 0 =
      .ok a0 from rfl]
    dsimp only
    rw [show FileEvent.PathArg ⟨SYS_linkat, [a0, a1, a2, a3, fl], ["", p1]⟩ 1 =
      .ok p1 from rfl]
    dsimp only
    rw [show FileEvent.Arg ⟨SYS_linkat, [a0, a1, a2, a3, fl], ["", p1]⟩ 2 =
      .ok a2 from rfl]
    dsimp only
    rw [show FileEvent.Arg ⟨SYS_linkat, [a0, a1, a2, a3, fl], ["", p1]⟩ 4 =
      .ok fl from rfl]
    dsimp only
    cases hres : PathIsUserControlled fs (Dirname p1) (some (toCInt a2)) 40 k with
    | mk r k1 =>
      cases r with
      | error er => dsimp only; rw [if_pos (by simp [hfl'])]
      | ok b =>
        cases b with
        | true => rfl
        | false => dsimp only; rw [if_pos (by simp [hfl'])]

/-- Claim C5 (witness): the immediate-false rule at a concrete `fchownat`
event, and the amended `linkat` behavior at a concrete event whose secondary
walk is user-controlled (answer `true`, not `false`). -/
theorem empty_path_short_circuits_witness :
    FileEventIsUserControlled rootSafeFs
      ⟨SYS_fchownat, [3, 0, 0, 0, 4096], [""]⟩ ⟨[], 0⟩ = (.ok false, ⟨[], 0⟩)
    ∧ FileEventIsUserControlled userDirFs
        ⟨SYS_linkat, [3, 0, 5, 0, 4096], ["", "x/y"]⟩ ⟨[], 0⟩ = (.ok true, ⟨[], 1⟩) := by
  constructor
  · exact (empty_path_short_circuits rootSafeFs ⟨[], 0⟩ 3 0 0 0 4096 [] "x"
      (by decide)).1
  · rw [(empty_path_short_circuits userDirFs ⟨[], 0⟩ 3 0 5 0 4096 [] "x/y"
      (by decide)).2.2.2]
    rfl

/-- The syscall identifiers enumerated by the dispatcher's switch. -/
def supportedSyscalls : List Nat :=
  [SYS_chmod, SYS_chown, SYS_chdir, SYS_rmdir, SYS_uselib, SYS_swapon,
   SYS_chroot, SYS_creat, SYS_truncate, SYS_unlink, SYS_mknod, SYS_mkdir,
   SYS_lchown, SYS_unlinkat, SYS_mknodat, SYS_mkdirat, SYS_open, SYS_openat,
   SYS_fchmodat, SYS_fchownat, SYS_execveat, SYS_execve, SYS_umount2,
   SYS_name_to_handle_at, SYS_rename, SYS_renameat, SYS_renameat2, SYS_link,
   SYS_symlink, SYS_linkat, SYS_symlinkat, SYS_mount]

/-- Claim C7 (counterexample): an event with an unsupported syscall number
but no path arguments yields the out-of-range error of `PathArg(0)` — which
runs before the switch — not an "unimplemented" error. -/
theorem unknown_syscall_no_patharg_counterexample :
    (FileEventIsUserControlled rootSafeFs ⟨999, [], []⟩ ⟨[], 0⟩).1 =
      .error (.outOfRange "Index 0 out of range (size 0).")
    ∧ ¬ ∃ msg, (FileEventIsUserControlled rootSafeFs ⟨999, [], []⟩ ⟨[], 0⟩).1 =
        .error (.unimplemented msg) := by
  refine ⟨rfl, ?_⟩
  rintro ⟨msg, hmsg⟩
  rw [show (FileEventIsUserControlled rootSafeFs ⟨999, [], []⟩ ⟨[], 0⟩).1 =
    .error (.outOfRange "Index 0 out of range (size 0).") from rfl] at hmsg
  simp at hmsg

/-- Claim C7 (amended, theorem): for every event carrying at least one path
argument whose syscall identifier is not one of the enumerated, supported
syscalls, the dispatcher returns the structured "unimplemented" error naming
the syscall; an event without path arguments instead fails with the
out-of-range error from `PathArg(0)`. -/
theorem unknown_syscall_unimplemented (fs : Filesystem) (k : KState)
    (nr : Nat) (args : List Nat) (p : String) (ps : List String)
    (h : nr ∉ supportedSyscalls) :
    FileEventIsUserControlled fs ⟨nr, args, p :: ps⟩ k =
      (.error (.unimplemented ("No support for syscall " ++ toString nr)), k) := by
  simp only [supportedSyscalls, List.mem_cons, List.not_mem_nil, or_false,
    not_or] at h
  unfold FileEventIsUserControlled
  rw [show FileEvent.PathArg ⟨nr, args, p :: ps⟩ 0 = .ok p from rfl]
  dsimp only
  rw [if_neg (by tauto), if_neg (by tauto), if_neg (by tauto),
    if_neg (by tauto), if_neg (by tauto), if_neg (by tauto),
    if_neg (by tauto), if_neg (by tauto), if_neg (by tauto),
    if_neg (by tauto), if_neg (by tauto), if_neg (by tauto),
    if_neg (by tauto), if_neg (by tauto), if_neg (by tauto),
    if_neg (by tauto), if_neg (by tauto), if_neg (by tauto)]

/-- Claim C7 (witness): syscall number 999 with one path argument yields the
unimplemented error naming 999. -/
theorem unknown_syscall_unimplemented_witness :
    FileEventIsUserControlled rootSafeFs ⟨999, [], ["p"]⟩ ⟨[], 0⟩ =
      (.error (.unimplemented "No support for syscall 999"), ⟨[], 0⟩) :=
  unknown_syscall_unimplemented rootSafeFs ⟨[], 0⟩ 999 [] "p" [] (by decide)

/-! ## Remote process view (process_information.cc) -/

/-- The host kernel's `open(2)`, as an oracle from path and flags to an fd,
`none` meaning failure. -/
structure HostFS where
  openPath : String → Nat → Option Nat

/-- `OpenFile` from process_information.cc: `open` wrapped into a status,
failing with a failed-precondition error quoting the path. -/
def OpenFile (h : HostFS) (path : String) (open_flags : Nat) : Except Err Nat :=
  match h.openPath path open_flags with
  | some fd => .ok fd
  | none => .error (.failedPrecondition ("Could not open \"" ++ path ++ "\""))

/-- `RemoteProcessInformation` (process_information.h): pid, stored cwd
string, optional cmdline, and the fallback toggle. -/
structure RemoteProcessInformation where
  pid : Nat
  cwd : String
  cmdline : Option String
  fallback : Bool
deriving DecidableEq, Repr

/-- `RemoteProcessInformation::OpenFileInProc`: open
`/proc/<pid>/<path>`. -/
def RemoteProcessInformation.OpenFileInProc (h : HostFS)
    (rpi : RemoteProcessInformation) (path : String) (open_flags : Nat) :
    Except Err Nat :=
  OpenFile h (JoinPath (JoinPath "/proc" (toString rpi.pid)) path) open_flags

/-- `RemoteProcessInformation::DupDirFileDescriptor`: open
`/proc/<pid>/fd/<fd>` (no fallback). -/
def RemoteProcessInformation.DupDirFileDescriptor (h : HostFS)
    (rpi : RemoteProcessInformation) (fd : Nat) (open_flags : Nat) :
    Except Err Nat :=
  rpi.OpenFileInProc h (JoinPath "fd" (toString fd)) open_flags

/-- `RemoteProcessInformation::CwdFileDescriptor`: first resolve the cwd
under `/proc/<pid>/root`; if that fails and fallback is enabled, retry the
raw stored cwd string. -/
def RemoteProcessInformation.CwdFileDescriptor (h : HostFS)
    (rpi : RemoteProcessInformation) (open_flags : Nat) : Except Err Nat :=
  match rpi.OpenFileInProc h (JoinPath "root" rpi.cwd) open_flags with
  | .ok fd => .ok fd
  | .error e =>
    if rpi.fallback then OpenFile h rpi.cwd open_flags else .error e

/-- `RemoteProcessInformation::RootFileDescriptor`: first open
`/proc/<pid>/root`; if that fails and fallback is enabled, retry `/`. -/
def RemoteProcessInformation.RootFileDescriptor (h : HostFS)
    (rpi : RemoteProcessInformation) (open_flags : Nat) : Except Err Nat :=
  match rpi.OpenFileInProc h "root" open_flags with
  | .ok fd => .ok fd
  | .error e =>
    if rpi.fallback then OpenFile h "/" open_flags else .error e

/-- Claim C8 (theorem): `RootFileDescriptor` first opens
`/proc/<pid>/root` and `CwdFileDescriptor` first opens
`/proc/<pid>/root/<cwd>`; a successful first open is returned as-is; if the
first open fails and fallback is enabled, the result is that of retrying
`/` (respectively the raw stored cwd string); if fallback is disabled, the
first failure is returned to the caller unchanged. -/
theorem remote_fd_fallback (h : HostFS) (rpi : RemoteProcessInformation)
    (open_flags : Nat) :
    (∀ fd, h.openPath (JoinPath (JoinPath "/proc" (toString rpi.pid)) "root")
        open_flags = some fd →
      rpi.RootFileDescriptor h open_flags = .ok fd)
    ∧ (h.openPath (JoinPath (JoinPath "/proc" (toString rpi.pid)) "root")
        open_flags = none → rpi.fallback = true →
      rpi.RootFileDescriptor h open_flags = OpenFile h "/" open_flags)
    ∧ (h.openPath (JoinPath (JoinPath "/proc" (toString rpi.pid)) "root")
        open_flags = none → rpi.fallback = false →
      rpi.RootFileDescriptor h open_flags =
        .error (.failedPrecondition ("Could not open \"" ++
          JoinPath (JoinPath "/proc" (toString rpi.pid)) "root" ++ "\"")))
    ∧ (∀ fd, h.openPath (JoinPath (JoinPath "/proc" (toString rpi.pid))
        (JoinPath "root" rpi.cwd)) open_flags = some fd →
      rpi.CwdFileDescriptor h open_flags = .ok fd)
    ∧ (h.openPath (JoinPath (JoinPath "/proc" (toString rpi.pid))
        (JoinPath "root" rpi.cwd)) open_flags = none → rpi.fallback = true →
      rpi.CwdFileDescriptor h open_flags = OpenFile h rpi.cwd open_flags)
    ∧ (h.openPath (JoinPath (JoinPath "/proc" (toString rpi.pid))
        (JoinPath "root" rpi.cwd)) open_flags = none → rpi.fallback = false →
      rpi.CwdFileDescriptor h open_flags =
        .error (.failedPrecondition ("Could not open \"" ++
          JoinPath (JoinPath "/proc" (toString rpi.pid))
            (JoinPath "root" rpi.cwd) ++ "\""))) := by
  refine ⟨?_, ?_, ?_, ?_, ?_, ?_⟩
  · intro fd hopen
    unfold RemoteProcessInformation.RootFileDescriptor
      RemoteProcessInformation.OpenFileInProc OpenFile
    rw [hopen]
  · intro hopen hfb
    unfold RemoteProcessInformation.RootFileDescriptor
      RemoteProcessInformation.OpenFileInProc OpenFile
    rw [hopen, hfb]
    dsimp only
    rw [if_pos rfl]
  · intro hopen hfb
    unfold RemoteProcessInformation.RootFileDescriptor
      RemoteProcessInformation.OpenFileInProc OpenFile
    rw [hopen, hfb]
    dsimp only
    rw [if_neg (by simp)]
  · intro fd hopen
    unfold RemoteProcessInformation.CwdFileDescriptor
      RemoteProcessInformation.OpenFileInProc OpenFile
    rw [hopen]
  · intro hopen hfb
    unfold RemoteProcessInformation.CwdFileDescriptor
      RemoteProcessInformation.OpenFileInProc OpenFile
    rw [hopen, hfb]
    dsimp only
    rw [if_pos rfl]
  · intro hopen hfb
    unfold RemoteProcessInformation.CwdFileDescriptor
      RemoteProcessInformation.OpenFileInProc OpenFile
    rw [hopen, hfb]
    dsimp only
    rw [if_neg (by simp)]

/-- A host filesystem on which only `/` can be opened (the audited pid is
gone), yielding fd 3. -/
def rootOnlyHost : HostFS := ⟨fun p _ => if p = "/" then some 3 else none⟩

/-- Claim C8 (witness): with pid 7 gone, fallback enabled retries `/` and
returns fd 3; with fallback disabled, the `/proc/7/root/w` failure is
returned unchanged. -/
theorem remote_fd_fallback_witness :
    RemoteProcessInformation.RootFileDescriptor rootOnlyHost ⟨7, "/w", none, true⟩ 0 =
      .ok 3
    ∧ RemoteProcessInformation.CwdFileDescriptor rootOnlyHost ⟨7, "/w", none, false⟩ 0 =
      .error (.failedPrecondition "Could not open \"/proc/7/root/w\"") := by
  constructor
  · rw [(remote_fd_fallback rootOnlyHost ⟨7, "/w", none, true⟩ 0).2.1
      (by decide) rfl]
    rfl
  · rw [(remote_fd_fallback rootOnlyHost ⟨7, "/w", none, false⟩ 0).2.2.2.2.2
      (by decide) rfl]
    rfl
